import Mathlib

/-!
Verification of the alertmanager webhook bridge (`src/main.go`).

The program receives Alertmanager webhook payloads over HTTP, maps each
alert to an incident ticket and submits the tickets one by one to a
ServiceNow client. We embed the data model (`template.Data`,
`template.Alert`, the `Incident` record), the mapper `alertToIncident`,
the batch loop `manageIncidents` and the HTTP handler `webhook` as Lean
functions, and prove the specified properties about them.

The external ServiceNow client is abstracted as a submit function; to
model a stateful collaborator faithfully it receives the index of the
call being made, so distinct calls with equal tickets may behave
differently. The batch loop returns, besides the Go function's error
result, the trace of tickets submitted, in order, so that call-count
properties can be stated.
-/

/-- A JSON value. String fields are all the decoder of this program
needs; numbers appear only in responses, where they are HTTP status
codes, so `Nat` suffices. -/
inductive Json where
  | null : Json
  | bool : Bool → Json
  | num : Nat → Json
  | str : String → Json
  | arr : List Json → Json
  | obj : List (String × Json) → Json

/-- The keys of a JSON object, in order; `[]` for non-objects. -/
def Json.objKeys : Json → List String
  | Json.obj kvs => kvs.map Prod.fst
  | _ => []

/-- Go `template.KV` (`map[string]string`), as an association list. -/
def KV : Type := List (String × String)

/-- Go map indexing `m[k]`: the value stored at `k`, or the zero value
`""` when the key is absent. -/
def KV.get (m : KV) (k : String) : String :=
  match List.find? (fun p => p.1 == k) m with
  | some p => p.2
  | none => ""

/-- Whether the key is present in the map. -/
def KV.hasKey (m : KV) (k : String) : Bool :=
  (List.find? (fun p => p.1 == k) m).isSome

/-- One alert of the webhook payload: `template.Alert` from the
Alertmanager template package. `startsAt`/`endsAt` are RFC3339 timestamps,
kept as strings since this program never reads them. -/
structure Alert where
  status : String
  labels : KV
  annotations : KV
  startsAt : String
  endsAt : String
  generatorURL : String

/-- The decoded webhook payload (an alert batch): `template.Data`. -/
structure Data where
  receiver : String
  status : String
  alerts : List Alert
  groupLabels : KV
  commonLabels : KV
  externalURL : String

/-- Modelled from the spec: the `Incident` record (the Ticket of §3) is
declared in a repository file that is not under `src/`; per §3 it has
exactly the seven fields that `alertToIncident` sets. -/
structure Incident where
  AssignmentGroup : String
  ContactType : String
  CallerID : String
  Description : String
  Impact : String
  ShortDescription : String
  Urgency : String

/-- The webhook HTTP response record `JSONResponse` (main.go lines
26-29). Field names are significant: they have no json tags, so Go
serializes them capitalized. -/
structure JSONResponse where
  Status : Nat
  Message : String

/-- Map one alert to an incident ticket: `alertToIncident` (main.go
lines 145-156). -/
def alertToIncident (alert : Alert) : Incident :=
  { AssignmentGroup := KV.get alert.labels "assignment_group"
    ContactType := "Monitoring System"
    CallerID := "Prometheus"
    Description := KV.get alert.annotations "description"
    Impact := "4"
    ShortDescription := KV.get alert.annotations "summary"
    Urgency := "3" }

/-- The abstract ServiceNow client: given the index of the call (the
client is stateful, so behaviour may depend on how many calls were made
before) and the incident, return the response body or an error. -/
def SubmitFun : Type := Nat → Incident → Except String String

/-- Returns `true` iff the submission succeeded. -/
def exceptOk (x : Except String String) : Bool :=
  match x with
  | Except.ok _ => true
  | Except.error _ => false

/-- The loop of `manageIncidents` (main.go lines 131-140), starting at
call index `i`: for each alert in order, map it and submit the incident;
stop at the first error and return it. Also returns the trace of
incidents submitted, in order. -/
def manageIncidentsAux (submit : SubmitFun) : Nat → List Alert → List Incident × Option String
  | _, [] => ([], none)
  | i, alert :: rest =>
    let incident := alertToIncident alert
    match submit i incident with
    | Except.error e => ([incident], some e)
    | Except.ok _ =>
      let r := manageIncidentsAux submit (i + 1) rest
      (incident :: r.1, r.2)

/-- Process the whole batch: `manageIncidents` (main.go lines 127-143),
returning the trace of submitted incidents and the error result (`none`
is Go's `nil` return). -/
def manageIncidents (submit : SubmitFun) (data : Data) : List Incident × Option String :=
  manageIncidentsAux submit 0 data.alerts

/-- Look up a key of a JSON object. -/
def getField (kvs : List (String × Json)) (k : String) : Option Json :=
  (List.find? (fun p => p.1 == k) kvs).map Prod.snd

/-- Modelled from the spec: Go `encoding/json` unmarshalling of a JSON
value into a `string` field (the decoding machinery is in the standard
library, not under `src/`). An absent key or `null` leaves the zero
value `""`; a non-string value is a type error. -/
def decodeStr (j : Option Json) : Except String String :=
  match j with
  | none => Except.ok ""
  | some Json.null => Except.ok ""
  | some (Json.str s) => Except.ok s
  | some _ => Except.error "json: cannot unmarshal value into Go value of type string"

/-- Modelled from the spec: unmarshalling the pairs of a JSON object
into `map[string]string` entries; every value must be a string (`null`
leaves the zero value). -/
def decodeKVPairs : List (String × Json) → Except String KV
  | [] => Except.ok []
  | (k, Json.str v) :: rest =>
    match decodeKVPairs rest with
    | Except.ok r => Except.ok ((k, v) :: r)
    | Except.error e => Except.error e
  | (k, Json.null) :: rest =>
    match decodeKVPairs rest with
    | Except.ok r => Except.ok ((k, "") :: r)
    | Except.error e => Except.error e
  | _ => Except.error "json: cannot unmarshal value into Go value of type map[string]string"

/-- Modelled from the spec: unmarshalling a JSON value into a
`template.KV` field. Absent or `null` leaves the zero value (empty
map); a non-object is a type error. -/
def decodeKV (j : Option Json) : Except String KV :=
  match j with
  | none => Except.ok []
  | some Json.null => Except.ok []
  | some (Json.obj kvs) => decodeKVPairs kvs
  | some _ => Except.error "json: cannot unmarshal value into Go value of type template.KV"

/-- Modelled from the spec: unmarshalling one element of the `alerts`
array into a `template.Alert`; unknown keys are ignored, absent keys
leave zero values. -/
def decodeAlert (j : Json) : Except String Alert :=
  match j with
  | Json.obj kvs =>
    match decodeStr (getField kvs "status"), decodeKV (getField kvs "labels"),
        decodeKV (getField kvs "annotations"), decodeStr (getField kvs "startsAt"),
        decodeStr (getField kvs "endsAt"), decodeStr (getField kvs "generatorURL") with
    | Except.ok st, Except.ok la, Except.ok an, Except.ok sa, Except.ok ea, Except.ok gu =>
      Except.ok { status := st, labels := la, annotations := an,
                  startsAt := sa, endsAt := ea, generatorURL := gu }
    | Except.error e, _, _, _, _, _ => Except.error e
    | _, Except.error e, _, _, _, _ => Except.error e
    | _, _, Except.error e, _, _, _ => Except.error e
    | _, _, _, Except.error e, _, _ => Except.error e
    | _, _, _, _, Except.error e, _ => Except.error e
    | _, _, _, _, _, Except.error e => Except.error e
  | Json.null => Except.ok { status := "", labels := [], annotations := [],
                             startsAt := "", endsAt := "", generatorURL := "" }
  | _ => Except.error "json: cannot unmarshal value into Go value of type template.Alert"

/-- Modelled from the spec: unmarshalling the `alerts` field. -/
def decodeAlertList : List Json → Except String (List Alert)
  | [] => Except.ok []
  | j :: rest =>
    match decodeAlert j with
    | Except.error e => Except.error e
    | Except.ok a =>
      match decodeAlertList rest with
      | Except.error e => Except.error e
      | Except.ok as => Except.ok (a :: as)

/-- Modelled from the spec: unmarshalling a JSON value into the
`Alerts` slice field; absent or `null` leaves the zero value `nil`. -/
def decodeAlerts (j : Option Json) : Except String (List Alert) :=
  match j with
  | none => Except.ok []
  | some Json.null => Except.ok []
  | some (Json.arr xs) => decodeAlertList xs
  | some _ => Except.error "json: cannot unmarshal value into Go value of type template.Alerts"

/-- Modelled from the spec: Go `encoding/json` unmarshalling of the
request body into `template.Data` (main.go line 95 delegates to the
standard library, which is not under `src/`). A JSON object is decoded
field by field through the json tags; every absent field keeps its zero
value; unknown keys are ignored; a top-level `null` is a no-op; any
other top-level value is a type error. -/
def decodeData (j : Json) : Except String Data :=
  match j with
  | Json.obj kvs =>
    match decodeStr (getField kvs "receiver"), decodeStr (getField kvs "status"),
        decodeAlerts (getField kvs "alerts"), decodeKV (getField kvs "groupLabels"),
        decodeKV (getField kvs "commonLabels"), decodeStr (getField kvs "externalURL") with
    | Except.ok re, Except.ok st, Except.ok al, Except.ok gl, Except.ok cl, Except.ok eu =>
      Except.ok { receiver := re, status := st, alerts := al,
                  groupLabels := gl, commonLabels := cl, externalURL := eu }
    | Except.error e, _, _, _, _, _ => Except.error e
    | _, Except.error e, _, _, _, _ => Except.error e
    | _, _, Except.error e, _, _, _ => Except.error e
    | _, _, _, Except.error e, _, _ => Except.error e
    | _, _, _, _, Except.error e, _ => Except.error e
    | _, _, _, _, _, Except.error e => Except.error e
  | Json.null => Except.ok { receiver := "", status := "", alerts := [],
                             groupLabels := [], commonLabels := [], externalURL := "" }
  | _ => Except.error "json: cannot unmarshal value into Go value of type template.Data"

/-- An incoming HTTP request: the method and the (parsed) body. The
method is carried because the handler receives it; `webhook` never
inspects it. -/
structure HttpRequest where
  method : String
  body : Json

/-- Decode the request body as a `template.Data`: `readRequestBody`
(main.go lines 88-98). -/
def readRequestBody (r : HttpRequest) : Except String Data :=
  decodeData r.body

/-- Modelled from the spec: Go `json.Marshal` of a `JSONResponse`
(main.go line 78). The struct has no json tags, so the standard
library emits the field names as written, in declaration order:
`Status` then `Message`. -/
def marshalJSONResponse (d : JSONResponse) : Json :=
  Json.obj [("Status", Json.num d.Status), ("Message", Json.str d.Message)]

/-- The HTTP response as observed by the caller: the status line code
and the JSON body. -/
structure HttpResponse where
  statusLine : Nat
  body : Json

/-- Marshal, per `sendJSONResponse` (main.go lines 73-86), a `JSONResponse`
holding the status and message, set the HTTP status line to the same
code and write the body. -/
def sendJSONResponse (status : Nat) (message : String) : HttpResponse :=
  { statusLine := status
    body := marshalJSONResponse { Status := status, Message := message } }

/-- The HTTP handler `webhook` (main.go lines 31-50): decode the body;
on decode failure
respond 400 with the error text; otherwise process the batch; on a
submission error respond 500 with the error text; otherwise respond 200
"Success". Besides the response, the model returns the trace of
incidents submitted downstream. -/
def webhook (submit : SubmitFun) (r : HttpRequest) : HttpResponse × List Incident :=
  match readRequestBody r with
  | Except.error e => (sendJSONResponse 400 e, [])
  | Except.ok data =>
    match manageIncidents submit data with
    | (calls, some e) => (sendJSONResponse 500 e, calls)
    | (calls, none) => (sendJSONResponse 200 "Success", calls)

/-- Modelled from the spec: the dispatch of net/http's
`DefaultServeMux`, in which `http.HandleFunc("/webhook", webhook)`
(main.go line 66) registers the handler. The standard-library mux (not
under `src/`) matches by URL path only and imposes no HTTP-method
restriction. -/
def serveMuxDispatch (submit : SubmitFun) (path : String) (r : HttpRequest) :
    Option (HttpResponse × List Incident) :=
  if path = "/webhook" then some (webhook submit r) else none

/-! Concrete inputs used by the witness theorems. -/

/-- An alert with no labels and no annotations. -/
def wAlertEmpty : Alert :=
  { status := "firing", labels := [], annotations := [],
    startsAt := "", endsAt := "", generatorURL := "" }

/-- A fully populated alert. -/
def wAlertFull : Alert :=
  { status := "firing"
    labels := [("assignment_group", "G"), ("alertname", "HighCPU")]
    annotations := [("description", "D"), ("summary", "S")]
    startsAt := "2020-01-01T00:00:00Z", endsAt := "", generatorURL := "http://p" }

/-- The same labels and annotations as `wAlertFull` but every other
field different. -/
def wAlertFullResolved : Alert :=
  { status := "resolved"
    labels := [("assignment_group", "G"), ("alertname", "HighCPU")]
    annotations := [("description", "D"), ("summary", "S")]
    startsAt := "2021-06-30T12:00:00Z", endsAt := "2021-06-30T13:00:00Z"
    generatorURL := "http://q" }

/-- A two-alert batch. -/
def wData2 : Data :=
  { receiver := "servicenow", status := "firing", alerts := [wAlertFull, wAlertEmpty],
    groupLabels := [("alertname", "HighCPU")], commonLabels := [], externalURL := "" }

/-- A client that succeeds on every call. -/
def wSubmitOk : SubmitFun := fun _ _ => Except.ok "created"

/-- A client whose first call succeeds and whose second call fails. -/
def wSubmitFailAt1 : SubmitFun :=
  fun i _ => if i == 0 then Except.ok "created" else Except.error "boom"

/-- A client that fails on every call. -/
def wSubmitFail : SubmitFun := fun _ _ => Except.error "boom"

/-! Theorems. -/

/-- A key that is not present in a `KV` map reads as the empty string. -/
theorem KV.get_absent (m : KV) (k : String) (h : KV.hasKey m k = false) :
    KV.get m k = "" := by
  unfold KV.get
  unfold KV.hasKey at h
  cases hf : List.find? (fun p => p.1 == k) m with
  | none => rfl
  | some p => rw [hf] at h; simp at h

/-- C1: for every alert, `alertToIncident` is total and returns a
Ticket whose seven fields are exactly: assignment group =
labels["assignment_group"], contact type = "Monitoring System", caller
id = "Prometheus", description = annotations["description"], impact =
"4", short description = annotations["summary"], urgency = "3"; absent
source entries become the empty string, and no field is left unset. -/
theorem alertToIncident_total_spec (a : Alert) :
    alertToIncident a =
      { AssignmentGroup := KV.get a.labels "assignment_group"
        ContactType := "Monitoring System"
        CallerID := "Prometheus"
        Description := KV.get a.annotations "description"
        Impact := "4"
        ShortDescription := KV.get a.annotations "summary"
        Urgency := "3" } ∧
    (KV.hasKey a.labels "assignment_group" = false →
      (alertToIncident a).AssignmentGroup = "") ∧
    (KV.hasKey a.annotations "description" = false →
      (alertToIncident a).Description = "") ∧
    (KV.hasKey a.annotations "summary" = false →
      (alertToIncident a).ShortDescription = "") := by
  refine ⟨rfl, ?_, ?_, ?_⟩ <;> intro h <;>
    simp [alertToIncident, KV.get_absent _ _ h]

/-- Witness for C1 at an alert with no labels and no annotations. -/
theorem alertToIncident_total_spec_witness :
    alertToIncident wAlertEmpty =
      { AssignmentGroup := KV.get wAlertEmpty.labels "assignment_group"
        ContactType := "Monitoring System"
        CallerID := "Prometheus"
        Description := KV.get wAlertEmpty.annotations "description"
        Impact := "4"
        ShortDescription := KV.get wAlertEmpty.annotations "summary"
        Urgency := "3" } ∧
    (alertToIncident wAlertEmpty).AssignmentGroup = "" ∧
    (alertToIncident wAlertEmpty).Description = "" ∧
    (alertToIncident wAlertEmpty).ShortDescription = "" :=
  ⟨(alertToIncident_total_spec wAlertEmpty).1,
   (alertToIncident_total_spec wAlertEmpty).2.1 (by decide),
   (alertToIncident_total_spec wAlertEmpty).2.2.1 (by decide),
   (alertToIncident_total_spec wAlertEmpty).2.2.2 (by decide)⟩

/-- C8: the mapping is deterministic — applying `alertToIncident`
twice to the same alert yields identical tickets, and the ticket
depends only on the alert's labels and annotations. -/
theorem alertToIncident_deterministic (a b : Alert)
    (hl : a.labels = b.labels) (ha : a.annotations = b.annotations) :
    alertToIncident a = alertToIncident a ∧
    alertToIncident a = alertToIncident b := by
  refine ⟨rfl, ?_⟩
  unfold alertToIncident
  rw [hl, ha]

/-- Witness for C8 at two alerts sharing labels and annotations but
differing in every other field. -/
theorem alertToIncident_deterministic_witness :
    alertToIncident wAlertFull = alertToIncident wAlertFull ∧
    alertToIncident wAlertFull = alertToIncident wAlertFullResolved :=
  alertToIncident_deterministic wAlertFull wAlertFullResolved rfl rfl

/-- If every submission from `start` on succeeds, the loop submits
every alert's incident, in order, and returns no error. -/
theorem manageIncidentsAux_all_ok (submit : SubmitFun) :
    ∀ (alerts : List Alert) (start : Nat),
      (∀ i, (h : i < alerts.length) →
        exceptOk (submit (start + i) (alertToIncident (alerts.get ⟨i, h⟩))) = true) →
      manageIncidentsAux submit start alerts = (alerts.map alertToIncident, none)
  | [], _, _ => rfl
  | a :: rest, start, hok => by
    have h0 : exceptOk (submit start (alertToIncident a)) = true :=
      hok 0 (Nat.succ_pos _)
    have ih := manageIncidentsAux_all_ok submit rest (start + 1) (fun i h => by
      have hx : exceptOk (submit (start + i + 1)
          (alertToIncident (rest.get ⟨i, h⟩))) = true :=
        hok (i + 1) (Nat.succ_lt_succ h)
      rw [Nat.add_right_comm] at hx
      exact hx)
    unfold manageIncidentsAux
    cases hs : submit start (alertToIncident a) with
    | error e => rw [hs] at h0; simp [exceptOk] at h0
    | ok r => simp only [hs, ih, List.map]

/-- C3: for every batch in which every submission succeeds,
`manageIncidents` returns no error and submits exactly one incident
per alert — `alerts.length` calls in total, in batch order. -/
theorem manageIncidents_all_ok (submit : SubmitFun) (d : Data)
    (hok : ∀ i, (h : i < d.alerts.length) →
      exceptOk (submit i (alertToIncident (d.alerts.get ⟨i, h⟩))) = true) :
    manageIncidents submit d = (d.alerts.map alertToIncident, none) ∧
    (d.alerts.map alertToIncident).length = d.alerts.length := by
  refine ⟨?_, by simp⟩
  unfold manageIncidents
  exact manageIncidentsAux_all_ok submit d.alerts 0 (fun i h => by
    simpa using hok i h)

/-- Witness for C3: a two-alert batch against an always-succeeding
client. -/
theorem manageIncidents_all_ok_witness :
    manageIncidents wSubmitOk wData2 = (wData2.alerts.map alertToIncident, none) ∧
    (wData2.alerts.map alertToIncident).length = wData2.alerts.length :=
  manageIncidents_all_ok wSubmitOk wData2 (fun _ _ => rfl)

/-- If the submissions for the first `k` alerts succeed and the one for
alert `k` fails with `e`, the loop submits exactly the first `k + 1`
incidents, in order, and returns `e`. -/
theorem manageIncidentsAux_fail_fast (submit : SubmitFun) (e : String) :
    ∀ (alerts : List Alert) (start k : Nat) (hk : k < alerts.length),
      (∀ i, (h : i < k) →
        exceptOk (submit (start + i)
          (alertToIncident (alerts.get ⟨i, Nat.lt_trans h hk⟩))) = true) →
      submit (start + k) (alertToIncident (alerts.get ⟨k, hk⟩)) = Except.error e →
      manageIncidentsAux submit start alerts =
        ((alerts.take (k + 1)).map alertToIncident, some e)
  | [], _, k, hk, _, _ => absurd hk (Nat.not_lt_zero k)
  | a :: rest, start, 0, _, _, herr => by
    have herr' : submit start (alertToIncident a) = Except.error e := herr
    unfold manageIncidentsAux
    simp only [herr', List.take, List.map]
  | a :: rest, start, k + 1, hk, hok, herr => by
    have hk' : k < rest.length := Nat.lt_of_succ_lt_succ hk
    have h0 : exceptOk (submit start (alertToIncident a)) = true :=
      hok 0 (Nat.succ_pos _)
    have hok' : ∀ i, (h : i < k) →
        exceptOk (submit (start + 1 + i)
          (alertToIncident (rest.get ⟨i, Nat.lt_trans h hk'⟩))) = true := by
      intro i h
      have hx : exceptOk (submit (start + i + 1)
          (alertToIncident (rest.get ⟨i, Nat.lt_trans h hk'⟩))) = true :=
        hok (i + 1) (Nat.succ_lt_succ h)
      rw [Nat.add_right_comm] at hx
      exact hx
    have herr' : submit (start + 1 + k)
        (alertToIncident (rest.get ⟨k, hk'⟩)) = Except.error e := by
      have hx : submit (start + k + 1)
          (alertToIncident (rest.get ⟨k, hk'⟩)) = Except.error e := herr
      rw [Nat.add_right_comm] at hx
      exact hx
    have ih := manageIncidentsAux_fail_fast submit e rest (start + 1) k hk' hok' herr'
    unfold manageIncidentsAux
    cases hs : submit start (alertToIncident a) with
    | error e' => rw [hs] at h0; simp [exceptOk] at h0
    | ok r => simp only [hs, ih, List.take, List.map]

/-- C2: for every batch in which the submission for the alert at index
`k` fails with error `e` and all earlier submissions succeed,
`manageIncidents` returns `e` after submitting exactly the first
`k + 1` incidents, in order; no alert beyond index `k` is submitted. -/
theorem manageIncidents_fail_fast (submit : SubmitFun) (d : Data) (k : Nat) (e : String)
    (hk : k < d.alerts.length)
    (hok : ∀ i, (h : i < k) →
      exceptOk (submit i (alertToIncident (d.alerts.get ⟨i, Nat.lt_trans h hk⟩))) = true)
    (herr : submit k (alertToIncident (d.alerts.get ⟨k, hk⟩)) = Except.error e) :
    manageIncidents submit d = ((d.alerts.take (k + 1)).map alertToIncident, some e) ∧
    ((d.alerts.take (k + 1)).map alertToIncident).length = k + 1 := by
  constructor
  · unfold manageIncidents
    exact manageIncidentsAux_fail_fast submit e d.alerts 0 k hk
      (fun i h => by simpa using hok i h) (by simpa using herr)
  · rw [List.length_map, List.length_take]
    omega

/-- Witness for C2: a two-alert batch against a client whose first call
succeeds and whose second call fails. -/
theorem manageIncidents_fail_fast_witness :
    manageIncidents wSubmitFailAt1 wData2 =
      ((wData2.alerts.take 2).map alertToIncident, some "boom") ∧
    ((wData2.alerts.take 2).map alertToIncident).length = 2 :=
  manageIncidents_fail_fast wSubmitFailAt1 wData2 1 "boom" (by decide)
    (fun i h => by
      have hi : i = 0 := Nat.lt_one_iff.mp h
      subst hi
      rfl)
    rfl

/-- C4: for every request whose body fails to decode, the endpoint
responds with HTTP status 400 and the decode error's text as the
message, and no incident is ever submitted (zero client calls). -/
theorem webhook_decode_failure (submit : SubmitFun) (r : HttpRequest) (e : String)
    (h : readRequestBody r = Except.error e) :
    webhook submit r =
      ({ statusLine := 400,
         body := Json.obj [("Status", Json.num 400), ("Message", Json.str e)] }, []) := by
  unfold webhook
  rw [h]
  rfl

/-- Witness for C4: a body that is a JSON string, not an object. -/
theorem webhook_decode_failure_witness :
    webhook wSubmitOk { method := "POST", body := Json.str "garbage" } =
      ({ statusLine := 400,
         body := Json.obj [("Status", Json.num 400),
           ("Message",
             Json.str "json: cannot unmarshal value into Go value of type template.Data")] },
       []) :=
  webhook_decode_failure wSubmitOk { method := "POST", body := Json.str "garbage" }
    "json: cannot unmarshal value into Go value of type template.Data" rfl

/-- C5: for every request whose batch processing returns an error, the
endpoint responds with HTTP status 500 and exactly that error's text,
unmodified, as the message. -/
theorem webhook_submit_failure (submit : SubmitFun) (r : HttpRequest) (d : Data) (e : String)
    (hd : readRequestBody r = Except.ok d)
    (he : (manageIncidents submit d).2 = some e) :
    (webhook submit r).1 =
      { statusLine := 500,
        body := Json.obj [("Status", Json.num 500), ("Message", Json.str e)] } := by
  unfold webhook
  rw [hd]
  show (match manageIncidents submit d with
    | (calls, some e) => (sendJSONResponse 500 e, calls)
    | (calls, none) => (sendJSONResponse 200 "Success", calls)).1 = _
  cases hm : manageIncidents submit d with
  | mk calls res =>
    rw [hm] at he
    simp only at he
    subst he
    rfl

/-- Witness for C5: a one-alert batch against an always-failing
client. -/
theorem webhook_submit_failure_witness :
    (webhook wSubmitFail
        { method := "POST", body := Json.obj [("alerts", Json.arr [Json.obj []])] }).1 =
      { statusLine := 500,
        body := Json.obj [("Status", Json.num 500), ("Message", Json.str "boom")] } :=
  webhook_submit_failure wSubmitFail
    { method := "POST", body := Json.obj [("alerts", Json.arr [Json.obj []])] }
    { receiver := "", status := "",
      alerts := [{ status := "", labels := [], annotations := [],
                   startsAt := "", endsAt := "", generatorURL := "" }],
      groupLabels := [], commonLabels := [], externalURL := "" }
    "boom" rfl rfl

/-- C7: for every request that decodes and whose batch processing
returns no error, the endpoint responds with HTTP status 200 and the
fixed message "Success". -/
theorem webhook_success (submit : SubmitFun) (r : HttpRequest) (d : Data)
    (hd : readRequestBody r = Except.ok d)
    (hn : (manageIncidents submit d).2 = none) :
    (webhook submit r).1 =
      { statusLine := 200,
        body := Json.obj [("Status", Json.num 200), ("Message", Json.str "Success")] } := by
  unfold webhook
  rw [hd]
  show (match manageIncidents submit d with
    | (calls, some e) => (sendJSONResponse 500 e, calls)
    | (calls, none) => (sendJSONResponse 200 "Success", calls)).1 = _
  cases hm : manageIncidents submit d with
  | mk calls res =>
    rw [hm] at hn
    simp only at hn
    subst hn
    rfl

/-- Witness for C7: a one-alert batch against an always-succeeding
client. -/
theorem webhook_success_witness :
    (webhook wSubmitOk
        { method := "POST", body := Json.obj [("alerts", Json.arr [Json.obj []])] }).1 =
      { statusLine := 200,
        body := Json.obj [("Status", Json.num 200), ("Message", Json.str "Success")] } :=
  webhook_success wSubmitOk
    { method := "POST", body := Json.obj [("alerts", Json.arr [Json.obj []])] }
    { receiver := "", status := "",
      alerts := [{ status := "", labels := [], annotations := [],
                   startsAt := "", endsAt := "", generatorURL := "" }],
      groupLabels := [], commonLabels := [], externalURL := "" }
    rfl rfl

/-- Counterexample for C6: the response body's JSON keys are "Status"
and "Message" (Go's default field-name serialization for the untagged
`JSONResponse` struct), not "status" and "message". -/
theorem webhook_response_keys_counterexample :
    (webhook wSubmitOk { method := "POST", body := Json.obj [] }).1.body.objKeys =
      ["Status", "Message"] ∧
    (webhook wSubmitOk { method := "POST", body := Json.obj [] }).1.body.objKeys ≠
      ["status", "message"] := by
  refine ⟨rfl, ?_⟩
  decide

/-- C6 (amended): every response the endpoint produces is a JSON
object with keys "Status" and "Message", where "Status" holds the
numeric code and the HTTP status line is set to that same code. -/
theorem webhook_response_shape (submit : SubmitFun) (r : HttpRequest) :
    ∃ m : String, (webhook submit r).1.body =
      Json.obj [("Status", Json.num (webhook submit r).1.statusLine),
                ("Message", Json.str m)] := by
  unfold webhook
  cases readRequestBody r with
  | error e => exact ⟨e, rfl⟩
  | ok d =>
    dsimp only
    cases manageIncidents submit d with
    | mk calls res =>
      cases res with
      | none => exact ⟨"Success", rfl⟩
      | some e => exact ⟨e, rfl⟩

/-- C9: a JSON object body that omits all expected fields — in
particular "\x7b\x7d" — decodes successfully into a batch with
empty/zero fields; for the empty-object body the pipeline submits zero
incidents, returns no error, and the endpoint responds 200 "Success". -/
theorem webhook_lenient_decode (submit : SubmitFun) (kvs : List (String × Json))
    (habs : ∀ p ∈ kvs, p.1 ∉ (["receiver", "status", "alerts", "groupLabels",
        "commonLabels", "externalURL"] : List String)) :
    decodeData (Json.obj kvs) =
      Except.ok { receiver := "", status := "", alerts := [],
                  groupLabels := [], commonLabels := [], externalURL := "" } ∧
    manageIncidents submit
        { receiver := "", status := "", alerts := [],
          groupLabels := [], commonLabels := [], externalURL := "" } = ([], none) ∧
    webhook submit { method := "POST", body := Json.obj [] } =
      ({ statusLine := 200,
         body := Json.obj [("Status", Json.num 200), ("Message", Json.str "Success")] },
       []) := by
  have hget : ∀ k : String, k ∈ (["receiver", "status", "alerts", "groupLabels",
      "commonLabels", "externalURL"] : List String) → getField kvs k = none := by
    intro k hk
    have hfind : List.find? (fun p => p.1 == k) kvs = none :=
      List.find?_eq_none.mpr (fun p hp => by
        simp only [beq_iff_eq]
        exact fun hpk => habs p hp (by rw [hpk]; exact hk))
    unfold getField
    rw [hfind]
    rfl
  have h1 := hget "receiver" (by simp)
  have h2 := hget "status" (by simp)
  have h3 := hget "alerts" (by simp)
  have h4 := hget "groupLabels" (by simp)
  have h5 := hget "commonLabels" (by simp)
  have h6 := hget "externalURL" (by simp)
  refine ⟨?_, rfl, rfl⟩
  simp only [decodeData, h1, h2, h3, h4, h5, h6, decodeStr, decodeKV, decodeAlerts]

/-- Witness for C9 at a body holding a single unknown key. -/
theorem webhook_lenient_decode_witness :
    decodeData (Json.obj [("foo", Json.str "bar")]) =
      Except.ok { receiver := "", status := "", alerts := [],
                  groupLabels := [], commonLabels := [], externalURL := "" } ∧
    manageIncidents wSubmitOk
        { receiver := "", status := "", alerts := [],
          groupLabels := [], commonLabels := [], externalURL := "" } = ([], none) ∧
    webhook wSubmitOk { method := "POST", body := Json.obj [] } =
      ({ statusLine := 200,
         body := Json.obj [("Status", Json.num 200), ("Message", Json.str "Success")] },
       []) :=
  webhook_lenient_decode wSubmitOk [("foo", Json.str "bar")] (by decide)

/-- C10: the webhook handler is registered with no HTTP-method
restriction — the (modelled) mux dispatches every request whose path is
/webhook to the handler regardless of method, and the handler's
behaviour is identical for any two methods on the same body. -/
theorem webhook_method_agnostic (submit : SubmitFun) (m1 m2 : String) (body : Json) :
    serveMuxDispatch submit "/webhook" { method := m1, body := body } =
      some (webhook submit { method := m1, body := body }) ∧
    webhook submit { method := m1, body := body } =
      webhook submit { method := m2, body := body } :=
  ⟨by simp [serveMuxDispatch], rfl⟩
